import Mathlib

/-!
Verification development for the `vak` realtime-trigger engine:
a shallow embedding of `src/vak/realtime_triggers/triggers.py`,
`src/vak/realtime_triggers/actions.py`, `src/vak/converters.py`
(`json_path_to_trigger_list`) and `src/vak/transforms/functional.py`,
with theorems settling the specification's claims about them.

Strings are embedded as `List Char`, Python lists as Lean lists,
numpy float arrays as lists of rationals, and Python exceptions as
`Except` error values.
-/

namespace Vak

/-! ### A fragment of the `regex` module used by `TransitionTrigger.check_trigger`

`check_trigger` calls `re.search(".*" + from_seg + to_seg + ".*", joined)`.
We embed the fragment of the regex language the triggers use: literal
characters, the wildcard `.` (which, as in Python without DOTALL, does not
match a newline), the greedy quantifier `*` applied to a single atom, and
top-level alternation `|` (lowest precedence, splitting the whole pattern
into branches tried left to right, as in Python without groups).
Metacharacters outside this fragment (groups, classes, anchors, escapes,
the quantifiers `+` and `?`) are treated as compile errors; Python
accepts some of those, so theorems quantifying over patterns range over
this fragment — the fragment does include alternation, which is the
construct on which the pattern-shape `".*" ++ f ++ t ++ ".*"` stops
guaranteeing matches that reach the end of the subject. Pattern
compilation errors model `re.error` (e.g. a double star, `.**`, is
"multiple repeat" in Python and a compile error here). Matching uses
Python's backtracking priority: `*` is greedy, trying the longer
consumption first, alternatives are tried left to right, and `search`
tries start positions left to right, returning the first that
matches. -/

/-- A regex atom: the wildcard `.` or a literal character. -/
inductive Atom where
  | dot : Atom
  | lit : Char → Atom
deriving DecidableEq

/-- One compiled regex token: an atom, possibly under a greedy `*`. -/
structure RTok where
  atom : Atom
  starred : Bool
deriving DecidableEq

/-- Metacharacters outside the embedded fragment; compiling them errors. -/
def metachars : List Char := ['(', ')', '[', ']', '{', '}', '\\', '+', '?', '^', '$']

/-- Compile a pattern string into a list of alternation branches, each a
token list; `acc` is the current branch in reverse, `branches` the
finished branches in reverse. `*` stars the previous token of the current
branch; `*` at the start of a branch ("nothing to repeat") or a double
star ("multiple repeat") is an error, as in Python `re`; `|` finishes the
current branch and starts a new one (an empty branch is allowed, as in
Python). -/
def compileAux : List Char → List RTok → List (List RTok) → Option (List (List RTok))
  | [], acc, branches => some ((acc.reverse :: branches).reverse)
  | c :: rest, acc, branches =>
    if c = '*' then
      match acc with
      | [] => none
      | t :: acc2 =>
        if t.starred then none else compileAux rest (⟨t.atom, true⟩ :: acc2) branches
    else if c = '|' then
      compileAux rest [] (acc.reverse :: branches)
    else if c = '.' then
      compileAux rest (⟨Atom.dot, false⟩ :: acc) branches
    else if c ∈ metachars then
      none
    else
      compileAux rest (⟨Atom.lit c, false⟩ :: acc) branches

/-- Compile a pattern string into its top-level alternation branches;
`none` models `re.error`. -/
def compilePat (p : List Char) : Option (List (List RTok)) := compileAux p [] []

/-- Whether an atom matches one character. As in Python without the
DOTALL flag, `.` matches every character except a newline. -/
def atomMatches : Atom → Char → Bool
  | Atom.dot, c => c ≠ '\n'
  | Atom.lit a, c => a = c

/-- Greedy `a*` followed by the continuation `cont`: consume as many
`a`-matching characters as possible, backtracking to `cont` on failure.
Returns the unconsumed suffix of the first successful alternative. -/
def rstar (a : Atom) (cont : List Char → Option (List Char)) : List Char → Option (List Char)
  | [] => cont []
  | c :: s => if atomMatches a c then (rstar a cont s).orElse (fun _ => cont (c :: s)) else cont (c :: s)

/-- Match a token list against a string from its start, with Python's
backtracking priority; returns the unconsumed suffix on success. -/
def rmatch : List RTok → List Char → Option (List Char)
  | [], s => some s
  | ⟨a, false⟩ :: p, s =>
    match s with
    | [] => none
    | c :: s2 => if atomMatches a c then rmatch p s2 else none
  | ⟨a, true⟩ :: p, s => rstar a (rmatch p) s

/-- Match the alternation branches at the current position, trying them
left to right as Python does; returns the first branch's unconsumed
suffix. -/
def rmatchAlt : List (List RTok) → List Char → Option (List Char)
  | [], _ => none
  | b :: alts, s => (rmatch b s).orElse (fun _ => rmatchAlt alts s)

/-- Try matching at each start position in turn, as `re.search` does;
`total` is the length of the full subject string, so that a success at
suffix `s` reports the match end `total - (unconsumed suffix).length`. -/
def searchAux (alts : List (List RTok)) (total : Nat) : List Char → Nat → Option (Nat × Nat)
  | [], start =>
    match rmatchAlt alts [] with
    | some rem => some (start, total - rem.length)
    | none => none
  | c :: s2, start =>
    match rmatchAlt alts (c :: s2) with
    | some rem => some (start, total - rem.length)
    | none => searchAux alts total s2 (start + 1)

/-- `re.search`: the span `(m.start(), m.end())` of the leftmost match. -/
def searchPat (alts : List (List RTok)) (s : List Char) : Option (Nat × Nat) :=
  searchAux alts s.length s 0

/-! ### Actions — `src/vak/realtime_triggers/actions.py` -/

/-- `print_to_screen(trig, cur_stream, match)`, embedded as a pure
function of the stream and the match span `(match.start(), match.end())`.
It returns the slice of the stream that is printed
(`cur_stream[max(0, start-10) : min(len(cur_stream), end+10)]`; Python's
`max(0, start-10)` is truncated subtraction on `Nat`) together with the
number the notice reports as "segments not printed",
`len(cur_stream) - 10`. The actual `print` side effect carries no further
information; the stream is not mutated (the embedding is a pure function
of it). -/
def print_to_screen (cur_stream : List (List Char)) (mstart mend : Nat) :
    List (List Char) × Int :=
  let start := mstart - 10
  let stop := min cur_stream.length (mend + 10)
  ((cur_stream.drop start).take (stop - start), (cur_stream.length : Int) - 10)

/-- The type of a registered action, as `print_to_screen` is embedded. -/
abbrev ActionFn := List (List Char) → Nat → Nat → List (List Char) × Int

/-- `AVAILABLE_ACTIONS`: the action registry, a fixed name-to-callable map. -/
def AVAILABLE_ACTIONS : List (String × ActionFn) := [("print_to_screen", print_to_screen)]

/-- Python dict lookup `AVAILABLE_ACTIONS[name]` (and `name in AVAILABLE_ACTIONS`
via `isSome`). -/
def lookupAction (name : String) : Option ActionFn :=
  AVAILABLE_ACTIONS.lookup name

/-! ### Triggers — `src/vak/realtime_triggers/triggers.py` -/

/-- `TRIGGER_TYPES = ["transition"]`. -/
def TRIGGER_TYPES : List String := ["transition"]

/-- `Trigger.NOT_TRIGGERED = -1`. -/
def NOT_TRIGGERED : Int := -1

/-- `TransitionTrigger(callback, from_seg, to_seg)`. -/
structure TransitionTrigger where
  callback : ActionFn
  from_seg : List Char
  to_seg : List Char

/-- The characters `".*"` wrapped around the trigger pattern. -/
def dotStarStr : List Char := ['.', '*']

/-- The pattern string `".*" + self.from_seg + self.to_seg + ".*"` built
by `check_trigger`. -/
def streamRegex (t : TransitionTrigger) : List Char :=
  dotStarStr ++ t.from_seg ++ t.to_seg ++ dotStarStr

/-- `TransitionTrigger.check_trigger(cur_stream)`: joins the stream with
no separator, searches it for `".*" + from_seg + to_seg + ".*"`, and
returns `m.end()` on a match or `NOT_TRIGGERED` otherwise. A `re.error`
raised by the invalid pattern propagates (the method catches nothing);
that is the `.error` case. The callback invocation on a match is a side
effect that does not change the returned value. -/
def check_trigger (t : TransitionTrigger) (cur_stream : List (List Char)) :
    Except Unit Int :=
  match compilePat (streamRegex t) with
  | none => Except.error ()
  | some p =>
    match searchPat p cur_stream.flatten with
    | some (_, e) => Except.ok (e : Int)
    | none => Except.ok NOT_TRIGGERED

/-! ### Trigger Engine evaluation loop

Modelled from the spec: the realtime engine loop (`core.realtime`) that
invokes every configured trigger on each stream update is not among the
sources (only its caller `cli/realtime.py` is). Per §4.4/§7 of the spec,
it evaluates every trigger in declaration order; a pattern-matching error
for one trigger is caught and reported as a `TriggerEvaluationError` for
that trigger only, and evaluation of subsequent triggers continues. -/

/-- The per-trigger outcome an engine update reports: the check's result
index, or a `TriggerEvaluationError` for that trigger. -/
inductive EvalOutcome where
  | evalError : EvalOutcome
  | result : Int → EvalOutcome
deriving DecidableEq

/-- Modelled from the spec: one engine update (`onNewSymbol`) over the
ordered trigger list; each trigger's evaluation error is captured as
`TriggerEvaluationError` without aborting the remaining triggers. -/
def onNewSymbol (triggers : List TransitionTrigger) (stream : List (List Char)) :
    List EvalOutcome :=
  triggers.map fun t =>
    match check_trigger t stream with
    | Except.error _ => EvalOutcome.evalError
    | Except.ok n => EvalOutcome.result n

/-! ### Trigger configuration loader — `src/vak/converters.py`

`json_path_to_trigger_list` reads a JSON document; we embed the parsed
document directly: a `Config` is the JSON object (its optional
`"triggers"` key), each entry a `TrigSpec` with the optional keys
`"type"`, `"callback"`, `"from"`, `"to"`. Python `TypeError` raises are
`PyError.typeError`; a missing-key subscript (`trig["to"]` etc.) raises
`PyError.keyError`. -/

/-- One raw trigger entry of the JSON file; each field is `none` when the
key is absent. The JSON keys are `"type"`, `"callback"`, `"from"`, `"to"`
(`from` is a Lean keyword, hence the field names `fromField?`/`toField?`). -/
structure TrigSpec where
  type? : Option String
  callback? : Option String
  fromField? : Option (List Char)
  toField? : Option (List Char)
deriving DecidableEq

/-- The parsed JSON document: its optional top-level `"triggers"` list. -/
structure Config where
  triggers? : Option (List TrigSpec)
deriving DecidableEq

/-- A Python exception raised by the loader. -/
inductive PyError where
  | typeError : String → PyError
  | keyError : String → PyError
deriving DecidableEq

/-- The validation applied to one entry of the first pass
(`converters.py` lines 170-185), faithful to the source:
the final `from`/`to` checks are guarded by `trig["type"] == "Transition"`
with a capital T, while the earlier membership check forces the lowercase
`"transition"`, so that guard never holds; and the `to` check is
`if not "to" in trig and len(trig["to"]) == 1`, which on a missing `"to"`
evaluates `trig["to"]` and raises `KeyError`, and on a present `"to"`
short-circuits to `False`. -/
def validateEntry (trig : TrigSpec) : Except PyError Unit :=
  match trig.type? with
  | none => Except.error (PyError.typeError "has no type")
  | some ty =>
    if ty ∉ TRIGGER_TYPES then Except.error (PyError.typeError "no such trigger type")
    else match trig.callback? with
    | none => Except.error (PyError.typeError "has no callback")
    | some cb =>
      if (lookupAction cb).isNone then Except.error (PyError.typeError "unknown callback")
      else if ty = "Transition" then
        if trig.fromField? = none then
          Except.error (PyError.typeError "should have a from field")
        else match trig.toField? with
          | none => Except.error (PyError.keyError "to")
          | some _ => Except.ok ()
      else Except.ok ()

/-- The first, validation pass over all declared entries in order. -/
def validatePass : List TrigSpec → Except PyError Unit
  | [] => Except.ok ()
  | t :: ts =>
    match validateEntry t with
    | Except.error e => Except.error e
    | Except.ok _ => validatePass ts

/-- One step of the construction pass: for a `"transition"` entry,
`TransitionTrigger(AVAILABLE_ACTIONS[trig["callback"]], trig["from"], trig["to"])`,
with each subscript in Python's left-to-right evaluation order raising
`KeyError` when the key is missing; a non-`"transition"` entry constructs
nothing. -/
def constructEntry (trig : TrigSpec) : Except PyError (Option TransitionTrigger) :=
  match trig.type? with
  | none => Except.error (PyError.keyError "type")
  | some ty =>
    if ty = "transition" then
      match trig.callback? with
      | none => Except.error (PyError.keyError "callback")
      | some cb =>
        match lookupAction cb with
        | none => Except.error (PyError.keyError "callback not registered")
        | some act =>
          match trig.fromField? with
          | none => Except.error (PyError.keyError "from")
          | some f =>
            match trig.toField? with
            | none => Except.error (PyError.keyError "to")
            | some t2 => Except.ok (some ⟨act, f, t2⟩)
    else Except.ok none

/-- The second, construction pass: the `trig_list` built so far, paired
with the first exception raised (at which point Python stops appending).
The pair makes the partially built list observable. -/
def constructPass : List TrigSpec → List TransitionTrigger × Option PyError
  | [] => ([], none)
  | t :: ts =>
    match constructEntry t with
    | Except.error e => ([], some e)
    | Except.ok none => constructPass ts
    | Except.ok (some trig) =>
      let rest := constructPass ts
      (trig :: rest.1, rest.2)

/-- `json_path_to_trigger_list`, from the parsed document on: check the
top-level `"triggers"` key, run the validation pass, then the
construction pass, returning the trigger list or the first exception. -/
def json_path_to_trigger_list (cfg : Config) : Except PyError (List TransitionTrigger) :=
  match cfg.triggers? with
  | none => Except.error (PyError.typeError "No trigger list in this JSON!")
  | some trigs =>
    match validatePass trigs with
    | Except.error e => Except.error e
    | Except.ok _ =>
      match constructPass trigs with
      | (l, none) => Except.ok l
      | (_, some e) => Except.error e

/-- The Trigger objects that a load attempt constructs before it returns
or raises: none while the `"triggers"` check or the validation pass
raises, otherwise the prefix the construction pass appended. -/
def constructedTriggers (cfg : Config) : List TransitionTrigger :=
  match cfg.triggers? with
  | none => []
  | some trigs =>
    match validatePass trigs with
    | Except.error _ => []
    | Except.ok _ => (constructPass trigs).1

/-- The exception a load attempt raises, if any (projection that keeps
equalities decidable: `TransitionTrigger` carries a callable). -/
def loadErr (cfg : Config) : Option PyError :=
  match json_path_to_trigger_list cfg with
  | Except.error e => some e
  | Except.ok _ => none

/-- The `to_seg` patterns of a successfully loaded trigger list. -/
def loadedToSegs (cfg : Config) : Option (List (List Char)) :=
  match json_path_to_trigger_list cfg with
  | Except.error _ => none
  | Except.ok l => some (l.map TransitionTrigger.to_seg)

/-! ### Windowing pipeline — `src/vak/transforms/functional.py`

Numpy float arrays are embedded over `ℚ`: a 1d array is a `List ℚ`, a 2d
array a `List (List ℚ)` of its rows (rectangular arrays correspond to
lists whose rows share one length, carried as a hypothesis where a
theorem needs the array's `shape`), a 3d array one level deeper. Numpy's
`reshape` reinterprets the row-major flat data, which for the nested
lists is `List.flatten`. A numpy `ValueError` is a `ShapeErr`. -/

/-- A numpy array of 0 to 3 dimensions, as the transforms see them. -/
inductive NpArr where
  | a0 : ℚ → NpArr
  | a1 : List ℚ → NpArr
  | a2 : List (List ℚ) → NpArr
  | a3 : List (List (List ℚ)) → NpArr
deriving DecidableEq

/-- A `ValueError` raised in the windowing pipeline: the wrong number of
dimensions, or a width `reshape` cannot factor into windows. -/
inductive ShapeErr where
  | badNdim : ShapeErr
  | cannotReshape : ShapeErr
deriving DecidableEq

/-- `standardize_spect(spect, mean_freqs, std_freqs, non_zero_std)`:
`tfm = spect - mean_freqs[:, np.newaxis]` subtracts each band's mean
across the time axis, then
`tfm[non_zero_std, :] = tfm[non_zero_std, :] / std_freqs[non_zero_std, np.newaxis]`
additionally divides the bands selected by the boolean mask by their
standard deviation. -/
def standardize_spect (spect : List (List ℚ)) (mean_freqs std_freqs : List ℚ)
    (non_zero_std : List Bool) : List (List ℚ) :=
  (spect.zip ((mean_freqs.zip std_freqs).zip non_zero_std)).map fun p =>
    match p with
    | (row, ((m, s), nz)) =>
      if nz then row.map (fun x => (x - m) / s) else row.map (fun x => x - m)

/-- `int(np.ceil(width / window_size) * window_size)` for a positive
`window_size` (the float arithmetic is exact at these magnitudes). -/
def target_width (width window_size : Nat) : Nat :=
  ((width + window_size - 1) / window_size) * window_size

/-- `pad_to_window(arr, window_size, padval, return_padding_mask)`:
reads the trailing-axis width from the shape (a 0d or 3d input raises
`ValueError`), allocates width `target_width` filled with `padval`,
copies the original into the leading `width` columns, and, when asked,
returns the boolean mask that is `True` on the first `width` positions
and `False` on the padding. For a 2d input the width is the common row
length (`height, width = arr.shape`), read here from the first row. -/
def pad_to_window (arr : NpArr) (window_size : Nat) (padval : ℚ)
    (return_padding_mask : Bool) : Except ShapeErr (NpArr × Option (List Bool)) :=
  match arr with
  | NpArr.a1 v =>
    let width := v.length
    let t := target_width width window_size
    let mask := List.replicate width true ++ List.replicate (t - width) false
    Except.ok (NpArr.a1 (v ++ List.replicate (t - width) padval),
      if return_padding_mask then some mask else none)
  | NpArr.a2 rows =>
    let width := (rows.headD []).length
    let t := target_width width window_size
    let mask := List.replicate width true ++ List.replicate (t - width) false
    Except.ok (NpArr.a2 (rows.map fun r => r ++ List.replicate (t - width) padval),
      if return_padding_mask then some mask else none)
  | _ => Except.error ShapeErr.badNdim

/-- Split a list into consecutive chunks of `k` elements (the last chunk
shorter when `k` does not divide the length); the fuel argument bounds
the recursion by the list length. -/
def chunkAux (k : Nat) : Nat → List α → List (List α)
  | 0, _ => []
  | _, [] => []
  | fuel + 1, l => l.take k :: chunkAux k fuel (l.drop k)

/-- Consecutive chunks of `k` elements of a list. -/
def chunkList (k : Nat) (l : List α) : List (List α) :=
  chunkAux k l.length l

/-- `reshape_to_window(arr, window_size)`:
`arr.reshape((-1, window_size))` for a 1d input and
`arr.reshape((-1, height, window_size))` for a 2d one, a pure row-major
regrouping of the flat data; numpy raises `ValueError` when the inferred
`-1` dimension does not come out whole (the flat size is not a positive
multiple of the product of the given dimensions), and the function
raises `ValueError` for an input with neither 1 nor 2 dimensions. -/
def reshape_to_window (arr : NpArr) (window_size : Nat) : Except ShapeErr NpArr :=
  match arr with
  | NpArr.a1 v =>
    if 0 < window_size ∧ v.length % window_size = 0 then
      Except.ok (NpArr.a2 (chunkList window_size v))
    else Except.error ShapeErr.cannotReshape
  | NpArr.a2 rows =>
    let height := rows.length
    let flat := rows.flatten
    if 0 < height * window_size ∧ flat.length % (height * window_size) = 0 then
      Except.ok (NpArr.a3 ((chunkList (height * window_size) flat).map (chunkList window_size)))
    else Except.error ShapeErr.cannotReshape
  | _ => Except.error ShapeErr.badNdim

/-- Crop a sequence by a boolean mask, keeping the positions where the
mask is true — the downstream use of `pad_to_window`'s padding mask. -/
def maskCrop (mask : List Bool) (l : List α) : List α :=
  (mask.zip l).filterMap fun p => if p.1 then some p.2 else none

/-! ### Concrete fixtures used by the claims -/

/-- A `TransitionTrigger` with `from_seg = "A"`, `to_seg = "B"`, bound to
the built-in `print_to_screen` action. -/
def trigAB : TransitionTrigger := ⟨print_to_screen, ['A'], ['B']⟩

/-- The stream `["A", "B", "C"]`. -/
def streamABC : List (List Char) := [['A'], ['B'], ['C']]

/-- The stream `["A", "C", "B"]`. -/
def streamACB : List (List Char) := [['A'], ['C'], ['B']]

/-- A valid `"transition"` entry: `from="A"`, `to="B"`, callback
`print_to_screen`. -/
def entryValidAB : TrigSpec := ⟨some "transition", some "print_to_screen", some ['A'], some ['B']⟩

/-- A `"transition"` entry with a valid type and callback but no `"from"`
key. -/
def entryMissingFrom : TrigSpec := ⟨some "transition", some "print_to_screen", none, some ['B']⟩

/-- A `"transition"` entry whose `"to"` key is present but empty. -/
def entryEmptyTo : TrigSpec := ⟨some "transition", some "print_to_screen", some ['A'], some []⟩

/-- A second valid `"transition"` entry: `from="C"`, `to="D"`. -/
def entryValidCD : TrigSpec := ⟨some "transition", some "print_to_screen", some ['C'], some ['D']⟩

/-- An entry is valid per spec §4.3: a recognized type, a registered
callback, a `"from"` field and a non-empty `"to"` field. -/
def validEntryB (t : TrigSpec) : Bool :=
  match t.type?, t.callback?, t.fromField?, t.toField? with
  | some ty, some cb, some _, some t2 =>
    (ty == "transition") && (lookupAction cb).isSome && !t2.isEmpty
  | _, _, _, _ => false

/-! ### Lemmas about the regex fragment -/

lemma target_width_dvd (w k : Nat) : k ∣ target_width w k :=
  Nat.dvd_mul_left k _

lemma le_target_width (w k : Nat) (hk : 0 < k) : w ≤ target_width w k := by
  have h1 := Nat.div_add_mod (w + k - 1) k
  have h2 := Nat.mod_lt (w + k - 1) hk
  unfold target_width
  rw [Nat.mul_comm]
  omega

lemma target_width_div (w k : Nat) (hk : 0 < k) :
    target_width w k / k = (w + k - 1) / k := by
  unfold target_width
  exact Nat.mul_div_cancel _ hk

lemma chunkAux_flatten (k : Nat) (hk : 0 < k) :
    ∀ (fuel : Nat) (l : List α), l.length ≤ fuel → (chunkAux k fuel l).flatten = l := by
  intro fuel
  induction fuel with
  | zero =>
    intro l hl
    have hnil : l = [] := List.eq_nil_of_length_eq_zero (by omega)
    subst hnil
    rfl
  | succ fuel ih =>
    intro l hl
    cases l with
    | nil => rfl
    | cons x xs =>
      simp only [chunkAux, List.flatten_cons]
      rw [ih _ (by simp only [List.length_drop, List.length_cons] at hl ⊢; omega)]
      exact List.take_append_drop k (x :: xs)

lemma chunkAux_chunks_length (k : Nat) (hk : 0 < k) :
    ∀ (fuel : Nat) (l : List α), l.length ≤ fuel → k ∣ l.length →
      ∀ c ∈ chunkAux k fuel l, c.length = k := by
  intro fuel
  induction fuel with
  | zero =>
    intro l hl _ c hc
    have hnil : l = [] := List.eq_nil_of_length_eq_zero (by omega)
    subst hnil
    cases hc
  | succ fuel ih =>
    intro l hl hd c hc
    cases l with
    | nil => cases hc
    | cons x xs =>
      have hkle : k ≤ (x :: xs).length := Nat.le_of_dvd (by simp) hd
      simp only [chunkAux, List.mem_cons] at hc
      rcases hc with hc | hc
      · subst hc
        simp only [List.length_take]
        omega
      · refine ih _ ?_ ?_ c hc
        · simp only [List.length_drop, List.length_cons] at hl ⊢
          omega
        · rw [List.length_drop]
          exact Nat.dvd_sub' hd dvd_rfl

lemma chunkAux_length_dvd (k : Nat) (hk : 0 < k)
    (fuel : Nat) (l : List α) (hl : l.length ≤ fuel) (hd : k ∣ l.length) :
    (chunkAux k fuel l).length = l.length / k := by
  have hall := chunkAux_chunks_length k hk fuel l hl hd
  have hmap : (chunkAux k fuel l).map List.length =
      List.replicate (chunkAux k fuel l).length k := by
    rw [List.eq_replicate_iff]
    constructor
    · simp
    · intro b hb
      obtain ⟨c, hc, hcb⟩ := List.mem_map.mp hb
      rw [← hcb]
      exact hall c hc
  have hlen : l.length = (chunkAux k fuel l).length * k := by
    conv_lhs => rw [← chunkAux_flatten k hk fuel l hl]
    rw [List.length_flatten, hmap, List.sum_replicate, smul_eq_mul]
  rw [hlen, Nat.mul_div_cancel _ hk]

lemma chunkList_flatten (k : Nat) (hk : 0 < k) (l : List α) :
    (chunkList k l).flatten = l :=
  chunkAux_flatten k hk l.length l le_rfl

lemma chunkList_chunks_length (k : Nat) (hk : 0 < k) (l : List α) (hd : k ∣ l.length) :
    ∀ c ∈ chunkList k l, c.length = k :=
  chunkAux_chunks_length k hk l.length l le_rfl hd

lemma chunkList_length (k : Nat) (hk : 0 < k) (l : List α) (hd : k ∣ l.length) :
    (chunkList k l).length = l.length / k :=
  chunkAux_length_dvd k hk l.length l le_rfl hd

lemma maskCrop_append (m1 m2 : List Bool) (l1 l2 : List α) (h : m1.length = l1.length) :
    maskCrop (m1 ++ m2) (l1 ++ l2) = maskCrop m1 l1 ++ maskCrop m2 l2 := by
  unfold maskCrop
  rw [List.zip_append h, List.filterMap_append]

lemma maskCrop_replicate_true (l : List α) :
    maskCrop (List.replicate l.length true) l = l := by
  induction l with
  | nil => rfl
  | cons x xs ih =>
    simp only [List.length_cons, List.replicate_succ, maskCrop, List.zip_cons_cons,
      List.filterMap_cons] at ih ⊢
    simp only [if_true, reduceIte] at ih ⊢
    rw [ih]

lemma maskCrop_replicate_false (n : Nat) (l : List α) :
    maskCrop (List.replicate n false) l = [] := by
  induction n generalizing l with
  | zero => rfl
  | succ n ih =>
    cases l with
    | nil => rfl
    | cons x xs =>
      simp only [List.replicate_succ, maskCrop, List.zip_cons_cons, List.filterMap_cons]
      simp only [Bool.false_eq_true, reduceIte]
      exact ih xs

lemma flatten_length_rect (rows : List (List α)) (w : Nat)
    (hrect : ∀ r ∈ rows, r.length = w) :
    rows.flatten.length = rows.length * w := by
  rw [List.length_flatten]
  have hmap : rows.map List.length = List.replicate rows.length w := by
    rw [List.eq_replicate_iff]
    refine ⟨by simp, ?_⟩
    intro b hb
    obtain ⟨r, hr, hrb⟩ := List.mem_map.mp hb
    rw [← hrb]
    exact hrect r hr
  rw [hmap, List.sum_replicate, smul_eq_mul]

lemma maskCrop_rows (w tw : Nat) (pv : ℚ) :
    ∀ (rs : List (List ℚ)), (∀ r ∈ rs, r.length = w) →
      maskCrop (List.replicate rs.length
          (List.replicate w true ++ List.replicate (tw - w) false)).flatten
        ((rs.map fun r => r ++ List.replicate (tw - w) pv).flatten) = rs.flatten := by
  intro rs
  induction rs with
  | nil => intro _; rfl
  | cons r rs ih =>
    intro hr
    have hrw : r.length = w := hr r (List.mem_cons_self r rs)
    simp only [List.length_cons, List.replicate_succ, List.map_cons, List.flatten_cons]
    rw [maskCrop_append _ _ _ _ (by
      simp only [List.length_append, List.length_replicate]
      omega)]
    have hone : maskCrop (List.replicate w true ++ List.replicate (tw - w) false)
        (r ++ List.replicate (tw - w) pv) = r := by
      rw [show w = r.length from hrw.symm,
        maskCrop_append _ _ _ _ (by simp), maskCrop_replicate_true,
        maskCrop_replicate_false, List.append_nil]
    rw [hone, ih fun r2 hr2 => hr r2 (List.mem_cons_of_mem _ hr2)]

lemma pad_reshape_1d (v : List ℚ) (k : Nat) (pv : ℚ) (hk : 0 < k) :
    ∃ padded mask ws,
      pad_to_window (NpArr.a1 v) k pv true = Except.ok (NpArr.a1 padded, some mask) ∧
      reshape_to_window (NpArr.a1 padded) k = Except.ok (NpArr.a2 ws) ∧
      ws.length = (v.length + k - 1) / k ∧
      (∀ w ∈ ws, w.length = k) ∧
      mask = List.replicate v.length true ++
        List.replicate (target_width v.length k - v.length) false ∧
      maskCrop mask ws.flatten = v := by
  have hle := le_target_width v.length k hk
  have hdvd := target_width_dvd v.length k
  refine ⟨v ++ List.replicate (target_width v.length k - v.length) pv,
    List.replicate v.length true ++
      List.replicate (target_width v.length k - v.length) false,
    chunkList k (v ++ List.replicate (target_width v.length k - v.length) pv),
    rfl, ?_, ?_, ?_, rfl, ?_⟩
  · have hplen : (v ++ List.replicate (target_width v.length k - v.length) pv).length =
        target_width v.length k := by
      simp only [List.length_append, List.length_replicate]
      omega
    simp only [reshape_to_window]
    rw [if_pos ⟨hk, by rw [hplen]; exact Nat.mod_eq_zero_of_dvd hdvd⟩]
  · have hplen : (v ++ List.replicate (target_width v.length k - v.length) pv).length =
        target_width v.length k := by
      simp only [List.length_append, List.length_replicate]
      omega
    rw [chunkList_length k hk _ (by rw [hplen]; exact hdvd), hplen,
      target_width_div v.length k hk]
  · exact chunkList_chunks_length k hk _ (by
      simp only [List.length_append, List.length_replicate]
      rw [show v.length + (target_width v.length k - v.length) = target_width v.length k by omega]
      exact hdvd)
  · rw [chunkList_flatten k hk, maskCrop_append _ _ _ _ (by simp),
      maskCrop_replicate_true, maskCrop_replicate_false, List.append_nil]

lemma pad_reshape_2d (rows : List (List ℚ)) (w k : Nat) (pv : ℚ) (hk : 0 < k)
    (hne : rows ≠ []) (hrect : ∀ r ∈ rows, r.length = w) :
    ∃ prows mask t3,
      pad_to_window (NpArr.a2 rows) k pv true = Except.ok (NpArr.a2 prows, some mask) ∧
      reshape_to_window (NpArr.a2 prows) k = Except.ok (NpArr.a3 t3) ∧
      t3.length = (w + k - 1) / k ∧
      (∀ win ∈ t3, ∀ r ∈ win, r.length = k) ∧
      mask = List.replicate w true ++ List.replicate (target_width w k - w) false ∧
      t3.flatten.flatten = prows.flatten ∧
      maskCrop (List.replicate rows.length mask).flatten prows.flatten = rows.flatten := by
  have hle := le_target_width w k hk
  have hdvd := target_width_dvd w k
  have hw : (rows.headD []).length = w := by
    cases rows with
    | nil => exact absurd rfl hne
    | cons r rs => exact hrect r (List.mem_cons_self r rs)
  have hhpos : 0 < rows.length := by
    cases rows with
    | nil => exact absurd rfl hne
    | cons r rs => simp
  set t := target_width w k with ht
  set prows := rows.map (fun r => r ++ List.replicate (t - w) pv) with hprows
  have hprect : ∀ r ∈ prows, r.length = t := by
    intro r hr
    obtain ⟨r0, hr0, hr0e⟩ := List.mem_map.mp hr
    rw [← hr0e]
    simp only [List.length_append, List.length_replicate, hrect r0 hr0]
    omega
  have hplen : prows.length = rows.length := by simp [hprows]
  have hflatlen : prows.flatten.length = prows.length * t :=
    flatten_length_rect prows t hprect
  have hhk : 0 < prows.length * k := by
    rw [hplen]
    exact Nat.mul_pos hhpos hk
  have hdvd2 : prows.length * k ∣ prows.flatten.length := by
    rw [hflatlen]
    exact Nat.mul_dvd_mul_left prows.length hdvd
  refine ⟨prows, List.replicate w true ++ List.replicate (t - w) false,
    (chunkList (prows.length * k) prows.flatten).map (chunkList k), ?_, ?_, ?_, ?_, rfl, ?_, ?_⟩
  · simp only [pad_to_window, hw]
    rfl
  · simp only [reshape_to_window]
    rw [if_pos ⟨hhk, Nat.mod_eq_zero_of_dvd hdvd2⟩]
  · rw [List.length_map, chunkList_length _ hhk _ hdvd2, hflatlen, hplen,
      Nat.mul_div_mul_left t k hhpos, target_width_div w k hk]
  · intro win hwin r hr
    obtain ⟨c, hc, hce⟩ := List.mem_map.mp hwin
    have hclen : c.length = prows.length * k :=
      chunkList_chunks_length _ hhk _ hdvd2 c hc
    rw [← hce] at hr
    exact chunkList_chunks_length k hk c
      (by rw [hclen]; exact Dvd.intro_left prows.length rfl) r hr
  · have hjoin : ∀ (cs : List (List ℚ)),
        ((cs.map (chunkList k)).flatten).flatten = cs.flatten := by
      intro cs
      induction cs with
      | nil => rfl
      | cons c cs ih =>
        simp only [List.map_cons, List.flatten_cons, List.flatten_append, ih,
          chunkList_flatten k hk]
    rw [hjoin, chunkList_flatten _ hhk]
  · exact maskCrop_rows w t pv rows hrect

/-! ### Lemmas about the loader on valid entries -/

lemma validEntryB_type (t : TrigSpec) (h : validEntryB t = true) :
    t.type? = some "transition" := by
  rcases t with ⟨ty?, cb?, f?, to?⟩
  rcases ty? with _ | ty
  · simp [validEntryB] at h
  rcases cb? with _ | cb
  · simp [validEntryB] at h
  rcases f? with _ | f
  · simp [validEntryB] at h
  rcases to? with _ | t2
  · simp [validEntryB] at h
  simp only [validEntryB, Bool.and_eq_true, beq_iff_eq] at h
  simp [h.1.1]

lemma validateEntry_ok (t : TrigSpec) (h : validEntryB t = true) :
    validateEntry t = Except.ok () := by
  rcases t with ⟨ty?, cb?, f?, to?⟩
  rcases ty? with _ | ty
  · simp [validEntryB] at h
  rcases cb? with _ | cb
  · simp [validEntryB] at h
  rcases f? with _ | f
  · simp [validEntryB] at h
  rcases to? with _ | t2
  · simp [validEntryB] at h
  simp only [validEntryB, Bool.and_eq_true, beq_iff_eq] at h
  obtain ⟨⟨hty, hlk⟩, _⟩ := h
  subst hty
  rcases hact : lookupAction cb with _ | act
  · rw [hact] at hlk
    cases hlk
  · simp [validateEntry, TRIGGER_TYPES, hact]

lemma validatePass_ok (trigs : List TrigSpec) (h : ∀ t ∈ trigs, validEntryB t = true) :
    validatePass trigs = Except.ok () := by
  induction trigs with
  | nil => rfl
  | cons t ts ih =>
    have ht := validateEntry_ok t (h t (List.mem_cons_self t ts))
    simp only [validatePass, ht]
    exact ih fun t2 ht2 => h t2 (List.mem_cons_of_mem _ ht2)

lemma constructEntry_ok (t : TrigSpec) (h : validEntryB t = true) :
    ∃ trig, constructEntry t = Except.ok (some trig) ∧
      t.fromField? = some trig.from_seg ∧ t.toField? = some trig.to_seg ∧
      t.callback?.bind lookupAction = some trig.callback := by
  rcases t with ⟨ty?, cb?, f?, to?⟩
  rcases ty? with _ | ty
  · simp [validEntryB] at h
  rcases cb? with _ | cb
  · simp [validEntryB] at h
  rcases f? with _ | f
  · simp [validEntryB] at h
  rcases to? with _ | t2
  · simp [validEntryB] at h
  simp only [validEntryB, Bool.and_eq_true, beq_iff_eq] at h
  obtain ⟨⟨hty, hlk⟩, _⟩ := h
  subst hty
  rcases hact : lookupAction cb with _ | act
  · rw [hact] at hlk
    cases hlk
  · exact ⟨⟨act, f, t2⟩, by simp [constructEntry, hact], rfl, rfl, by simp [hact]⟩

lemma constructPass_ok (trigs : List TrigSpec) (h : ∀ t ∈ trigs, validEntryB t = true) :
    ∃ l, constructPass trigs = (l, none) ∧
      List.Forall₂ (fun (t : TrigSpec) (trig : TransitionTrigger) =>
        t.fromField? = some trig.from_seg ∧ t.toField? = some trig.to_seg ∧
        t.callback?.bind lookupAction = some trig.callback) trigs l := by
  induction trigs with
  | nil => exact ⟨[], rfl, List.Forall₂.nil⟩
  | cons t ts ih =>
    obtain ⟨trig, hce, hf, ht2, hcb⟩ := constructEntry_ok t (h t (List.mem_cons_self t ts))
    obtain ⟨l, hcp, hfa⟩ := ih fun t2 ht2 => h t2 (List.mem_cons_of_mem _ ht2)
    refine ⟨trig :: l, ?_, List.Forall₂.cons ⟨hf, ht2, hcb⟩ hfa⟩
    simp only [constructPass, hce, hcp]

/-! ### Claims -/

/-- Claim C1, counterexample: for the `TransitionTrigger` with
`from="A"`, `to="B"`, `check_trigger` on the stream `["A","B","C"]`
reports the match end index 3, not 2 as the claim states — the pattern
`".*AB.*"` is greedy on both sides, so the reported `m.end()` is the end
of the joined stream. -/
theorem c1_check_end_counterexample :
    check_trigger trigAB streamABC = Except.ok 3 ∧ (3 : Int) ≠ 2 := by
  constructor
  · rfl
  · decide

/-- Claim C1, amended: for a `TransitionTrigger` with `from="A"`,
`to="B"`, `check_trigger` on the stream `["A","B","C"]` reports a match
whose end index is 3 — the position after the full regex match, which the
trailing `".*"` of the constructed pattern extends to the end of the
joined stream — and on the stream `["A","C","B"]` reports the
not-triggered result `NOT_TRIGGERED = -1`. -/
theorem c1_check_transition_amended :
    check_trigger trigAB streamABC = Except.ok 3 ∧
    check_trigger trigAB streamACB = Except.ok NOT_TRIGGERED := by
  constructor
  · rfl
  · rfl

/-- Claim C2 (code bug), evaluated at the failing input: a configuration
with one fully valid `"transition"` entry followed by one lacking its
`"from"` key passes the validation pass untouched (the `from`/`to`
checks sit under the dead guard `trig["type"] == "Transition"`), so the
load fails only in the construction pass with a `KeyError` — not the
loader's own `TypeError` — after the first Trigger object has already
been constructed: loading is not all-or-nothing. -/
theorem c2_loader_missing_from_not_all_or_nothing :
    loadErr ⟨some [entryValidAB, entryMissingFrom]⟩ = some (PyError.keyError "from") ∧
    validatePass [entryValidAB, entryMissingFrom] = Except.ok () ∧
    (constructedTriggers ⟨some [entryValidAB, entryMissingFrom]⟩).length = 1 := by
  refine ⟨rfl, rfl, rfl⟩

/-- Claim C3 (code bug), evaluated at the failing input: a configuration
whose single `"transition"` entry has a present-but-empty `"to"` field is
not rejected — the source's check `not "to" in trig and len(trig["to"]) == 1`
short-circuits to `False` whenever `"to"` is present (and its enclosing
branch is dead anyway) — so the loader returns a trigger list containing
a trigger whose `to_seg` is the empty pattern. -/
theorem c3_loader_accepts_empty_to :
    loadErr ⟨some [entryEmptyTo]⟩ = none ∧
    loadedToSegs ⟨some [entryEmptyTo]⟩ = some [[]] := by
  refine ⟨rfl, rfl⟩

/-- Claim C4: a pattern-matching error raised while evaluating one
trigger is reported as that trigger's `TriggerEvaluationError` only; the
other trigger in the same update is still evaluated and its check result
reported unchanged. -/
theorem c4_evaluation_error_isolated :
    ∀ (b g : TransitionTrigger) (stream : List (List Char)) (r : Int),
      check_trigger b stream = Except.error () →
      check_trigger g stream = Except.ok r →
      onNewSymbol [b, g] stream = [EvalOutcome.evalError, EvalOutcome.result r] := by
  intro b g stream r hb hg
  simp only [onNewSymbol, List.map_cons, List.map_nil, hb, hg]

/-- Claim C4, witness: with a first trigger whose `from` pattern `"*"`
makes the constructed regex `".**B.*"` invalid ("multiple repeat") and a
second valid trigger `from="A"`, `to="B"`, an update on the stream
`["A","B"]` reports an evaluation error for the first trigger and the
match of the second. -/
theorem c4_evaluation_error_isolated_witness :
    onNewSymbol [⟨print_to_screen, ['*'], ['B']⟩, trigAB] [['A'], ['B']] =
      [EvalOutcome.evalError, EvalOutcome.result 2] :=
  c4_evaluation_error_isolated ⟨print_to_screen, ['*'], ['B']⟩ trigAB [['A'], ['B']] 2
    (by rfl) (by rfl)

/-- Claim C5 (code bug), evaluated at the failing input: on the stream
`["A","B","C"]` with a match spanning the whole joined stream,
`print_to_screen` displays every symbol — zero symbols fall outside the
displayed window — yet the emitted notice reports
`len(cur_stream) - 10 = -7` "segments not printed", which is not the
count of stream symbols outside the displayed window. -/
theorem c5_print_count_wrong :
    (print_to_screen streamABC 0 3).1 = streamABC ∧
    streamABC.length - (print_to_screen streamABC 0 3).1.length = 0 ∧
    (print_to_screen streamABC 0 3).2 = -7 ∧
    ((-7 : Int) ≠ 0) := by
  refine ⟨rfl, rfl, rfl, by decide⟩

/-- Claim C6: every valid trigger configuration loads into a trigger list
with one trigger per `"transition"` entry (every valid entry is one), in
declaration order, each `TransitionTrigger` bound to the entry's `from`
pattern, `to` pattern, and the action the registry resolves for the
entry's callback name. -/
theorem c6_valid_config_loads :
    ∀ (trigs : List TrigSpec), (∀ t ∈ trigs, validEntryB t = true) →
      ∃ l, json_path_to_trigger_list ⟨some trigs⟩ = Except.ok l ∧
        l.length = (trigs.filter fun t => t.type? == some "transition").length ∧
        List.Forall₂ (fun (t : TrigSpec) (trig : TransitionTrigger) =>
          t.fromField? = some trig.from_seg ∧ t.toField? = some trig.to_seg ∧
          t.callback?.bind lookupAction = some trig.callback) trigs l := by
  intro trigs h
  obtain ⟨l, hcp, hfa⟩ := constructPass_ok trigs h
  refine ⟨l, ?_, ?_, hfa⟩
  · simp only [json_path_to_trigger_list, validatePass_ok trigs h, hcp]
  · have hfilter : trigs.filter (fun t => t.type? == some "transition") = trigs := by
      apply List.filter_eq_self.mpr
      intro t ht
      simp [validEntryB_type t (h t ht)]
    rw [hfilter, hfa.length_eq]

/-- Claim C6, witness: the configuration with the two valid transition
entries `from="A"`, `to="B"` and `from="C"`, `to="D"` loads into a
two-trigger list bound entrywise as the claim states. -/
theorem c6_valid_config_loads_witness :
    ∃ l, json_path_to_trigger_list ⟨some [entryValidAB, entryValidCD]⟩ = Except.ok l ∧
      l.length = ([entryValidAB, entryValidCD].filter fun t => t.type? == some "transition").length ∧
      List.Forall₂ (fun (t : TrigSpec) (trig : TransitionTrigger) =>
        t.fromField? = some trig.from_seg ∧ t.toField? = some trig.to_seg ∧
        t.callback?.bind lookupAction = some trig.callback) [entryValidAB, entryValidCD] l :=
  c6_valid_config_loads [entryValidAB, entryValidCD] (by decide)

/-- Claim C7: `standardize_spect`, on per-band statistics whose lengths
equal the band dimension (and whose mask marks only non-zero standard
deviations), returns an array of identical shape in which band `i` is
`spect[i] - mean[i]` mapped over the time axis, additionally divided by
`std[i]` exactly when the mask is true at `i`; in particular
`standardize_spect [[2,4]] [3] [1] [true] = [[-1,1]]`. -/
theorem c7_standardize_spect :
    (∀ (spect : List (List ℚ)) (mean_freqs std_freqs : List ℚ) (non_zero_std : List Bool),
        spect.length = mean_freqs.length →
        mean_freqs.length = std_freqs.length →
        std_freqs.length = non_zero_std.length →
        (∀ p ∈ std_freqs.zip non_zero_std, p.2 = true → p.1 ≠ 0) →
        (standardize_spect spect mean_freqs std_freqs non_zero_std).length = spect.length ∧
        (∀ (i : Nat) (hi : i < spect.length) (him : i < mean_freqs.length)
            (his : i < std_freqs.length) (hin : i < non_zero_std.length)
            (ho : i < (standardize_spect spect mean_freqs std_freqs non_zero_std).length),
            (standardize_spect spect mean_freqs std_freqs non_zero_std)[i] =
              if non_zero_std[i] = true then
                spect[i].map fun x => (x - mean_freqs[i]) / std_freqs[i]
              else
                spect[i].map fun x => x - mean_freqs[i])) ∧
    standardize_spect [[2, 4]] [3] [1] [true] = [[-1, 1]] := by
  constructor
  · intro spect mf sf nz h1 h2 h3 _
    constructor
    · simp only [standardize_spect, List.length_map, List.length_zip]
      omega
    · intro i hi him his hin ho
      simp only [standardize_spect, List.getElem_map, List.getElem_zip]
  · norm_num [standardize_spect, List.zip, List.zipWith]

/-- Claim C7, witness: the universal part instantiated at
`spect=[[2,4]]`, `mean=[3]`, `std=[1]`, `mask=[true]`, whose hypotheses
hold concretely. -/
theorem c7_standardize_spect_witness :
    (standardize_spect [[2, 4]] [3] [1] [true]).length = ([[2, 4]] : List (List ℚ)).length ∧
    (∀ (i : Nat) (hi : i < ([[2, 4]] : List (List ℚ)).length)
        (him : i < ([3] : List ℚ).length) (his : i < ([1] : List ℚ).length)
        (hin : i < ([true] : List Bool).length)
        (ho : i < (standardize_spect [[2, 4]] [3] [1] [true]).length),
        (standardize_spect [[2, 4]] [3] [1] [true])[i] =
          if ([true] : List Bool)[i] = true then
            (([[2, 4]] : List (List ℚ))[i]).map fun x => (x - ([3] : List ℚ)[i]) / ([1] : List ℚ)[i]
          else
            (([[2, 4]] : List (List ℚ))[i]).map fun x => x - ([3] : List ℚ)[i]) :=
  c7_standardize_spect.1 [[2, 4]] [3] [1] [true] rfl rfl rfl
    (by norm_num)

/-- Claim C8: for a 1d array of width `W` and for a rectangular 2d array
of width `W` (its rows sharing length `W`), padding with `pad_to_window`
and reshaping with `reshape_to_window` at window size `k > 0` succeeds
and yields exactly `ceil(W/k) = (W+k-1)/k` windows whose trailing
dimension is `k`; the padding mask is true on the first `W` positions and
false on the padding; the reshaped output flattens back to the padded
data, and cropping with the mask (per band, for the 2d case) reproduces
the original `W` columns exactly. -/
theorem c8_pad_reshape_roundtrip :
    (∀ (v : List ℚ) (k : Nat) (pv : ℚ), 0 < k →
      ∃ padded mask ws,
        pad_to_window (NpArr.a1 v) k pv true = Except.ok (NpArr.a1 padded, some mask) ∧
        reshape_to_window (NpArr.a1 padded) k = Except.ok (NpArr.a2 ws) ∧
        ws.length = (v.length + k - 1) / k ∧
        (∀ w ∈ ws, w.length = k) ∧
        mask = List.replicate v.length true ++
          List.replicate (target_width v.length k - v.length) false ∧
        maskCrop mask ws.flatten = v) ∧
    (∀ (rows : List (List ℚ)) (w k : Nat) (pv : ℚ), 0 < k → rows ≠ [] →
      (∀ r ∈ rows, r.length = w) →
      ∃ prows mask t3,
        pad_to_window (NpArr.a2 rows) k pv true = Except.ok (NpArr.a2 prows, some mask) ∧
        reshape_to_window (NpArr.a2 prows) k = Except.ok (NpArr.a3 t3) ∧
        t3.length = (w + k - 1) / k ∧
        (∀ win ∈ t3, ∀ r ∈ win, r.length = k) ∧
        mask = List.replicate w true ++ List.replicate (target_width w k - w) false ∧
        t3.flatten.flatten = prows.flatten ∧
        maskCrop (List.replicate rows.length mask).flatten prows.flatten = rows.flatten) :=
  ⟨fun v k pv hk => pad_reshape_1d v k pv hk,
   fun rows w k pv hk hne hrect => pad_reshape_2d rows w k pv hk hne hrect⟩

/-- Claim C8, witness: both parts instantiated — the 1d array `[1,2,3]`
and the 2d array `[[1,2,3],[4,5,6]]` with window size 2, whose
hypotheses hold concretely. -/
theorem c8_pad_reshape_roundtrip_witness :
    (∃ padded mask ws,
      pad_to_window (NpArr.a1 [1, 2, 3]) 2 0 true = Except.ok (NpArr.a1 padded, some mask) ∧
      reshape_to_window (NpArr.a1 padded) 2 = Except.ok (NpArr.a2 ws) ∧
      ws.length = (([1, 2, 3] : List ℚ).length + 2 - 1) / 2 ∧
      (∀ w ∈ ws, w.length = 2) ∧
      mask = List.replicate ([1, 2, 3] : List ℚ).length true ++
        List.replicate (target_width ([1, 2, 3] : List ℚ).length 2 -
          ([1, 2, 3] : List ℚ).length) false ∧
      maskCrop mask ws.flatten = [1, 2, 3]) ∧
    (∃ prows mask t3,
      pad_to_window (NpArr.a2 [[1, 2, 3], [4, 5, 6]]) 2 0 true =
        Except.ok (NpArr.a2 prows, some mask) ∧
      reshape_to_window (NpArr.a2 prows) 2 = Except.ok (NpArr.a3 t3) ∧
      t3.length = (3 + 2 - 1) / 2 ∧
      (∀ win ∈ t3, ∀ r ∈ win, r.length = 2) ∧
      mask = List.replicate 3 true ++ List.replicate (target_width 3 2 - 3) false ∧
      t3.flatten.flatten = prows.flatten ∧
      maskCrop (List.replicate ([[1, 2, 3], [4, 5, 6]] : List (List ℚ)).length mask).flatten
        prows.flatten = ([[1, 2, 3], [4, 5, 6]] : List (List ℚ)).flatten) :=
  ⟨c8_pad_reshape_roundtrip.1 [1, 2, 3] 2 0 (by decide),
   c8_pad_reshape_roundtrip.2 [[1, 2, 3], [4, 5, 6]] 3 2 0 (by decide) (by decide) (by decide)⟩

/-- Claim C9: `pad_to_window` fails with the dimensionality `ValueError`
on every 0d or 3d input, `reshape_to_window` fails likewise on 0d or 3d
inputs and fails with the reshape `ValueError` whenever the (1d or
rectangular non-empty 2d) input's width is not an exact multiple of the
window size; and on inputs satisfying the preconditions (1d or 2d; for
reshape, a positive window size dividing the width) neither operation
fails. -/
theorem c9_shape_errors :
    (∀ (x : ℚ) (k : Nat) (pv : ℚ) (b : Bool),
        pad_to_window (NpArr.a0 x) k pv b = Except.error ShapeErr.badNdim) ∧
    (∀ (t3 : List (List (List ℚ))) (k : Nat) (pv : ℚ) (b : Bool),
        pad_to_window (NpArr.a3 t3) k pv b = Except.error ShapeErr.badNdim) ∧
    (∀ (x : ℚ) (k : Nat), reshape_to_window (NpArr.a0 x) k = Except.error ShapeErr.badNdim) ∧
    (∀ (t3 : List (List (List ℚ))) (k : Nat),
        reshape_to_window (NpArr.a3 t3) k = Except.error ShapeErr.badNdim) ∧
    (∀ (v : List ℚ) (k : Nat), v.length % k ≠ 0 →
        reshape_to_window (NpArr.a1 v) k = Except.error ShapeErr.cannotReshape) ∧
    (∀ (rows : List (List ℚ)) (w k : Nat), 0 < rows.length →
        (∀ r ∈ rows, r.length = w) → w % k ≠ 0 →
        reshape_to_window (NpArr.a2 rows) k = Except.error ShapeErr.cannotReshape) ∧
    (∀ (v : List ℚ) (k : Nat) (pv : ℚ) (b : Bool), 0 < k →
        ∃ r, pad_to_window (NpArr.a1 v) k pv b = Except.ok r) ∧
    (∀ (rows : List (List ℚ)) (k : Nat) (pv : ℚ) (b : Bool), 0 < k →
        ∃ r, pad_to_window (NpArr.a2 rows) k pv b = Except.ok r) ∧
    (∀ (v : List ℚ) (k : Nat), 0 < k → v.length % k = 0 →
        ∃ ws, reshape_to_window (NpArr.a1 v) k = Except.ok (NpArr.a2 ws)) ∧
    (∀ (rows : List (List ℚ)) (w k : Nat), 0 < k → 0 < rows.length →
        (∀ r ∈ rows, r.length = w) → w % k = 0 →
        ∃ t3, reshape_to_window (NpArr.a2 rows) k = Except.ok (NpArr.a3 t3)) := by
  refine ⟨fun x k pv b => rfl, fun t3 k pv b => rfl, fun x k => rfl, fun t3 k => rfl,
    ?_, ?_, fun v k pv b hk => ⟨_, rfl⟩, fun rows k pv b hk => ⟨_, rfl⟩, ?_, ?_⟩
  · intro v k hmod
    simp only [reshape_to_window]
    rw [if_neg]
    rintro ⟨h1, h2⟩
    exact hmod h2
  · intro rows w k hh hrect hmod
    have hfl : rows.flatten.length = rows.length * w := flatten_length_rect rows w hrect
    simp only [reshape_to_window]
    rw [if_neg]
    rintro ⟨h1, h2⟩
    rw [hfl] at h2
    have hdv : rows.length * k ∣ rows.length * w := Nat.dvd_of_mod_eq_zero h2
    have hkw : k ∣ w := (mul_dvd_mul_iff_left (Nat.pos_iff_ne_zero.mp hh)).mp hdv
    exact hmod (Nat.mod_eq_zero_of_dvd hkw)
  · intro v k hk hmod
    simp only [reshape_to_window]
    rw [if_pos ⟨hk, hmod⟩]
    exact ⟨_, rfl⟩
  · intro rows w k hk hh hrect hmod
    have hfl : rows.flatten.length = rows.length * w := flatten_length_rect rows w hrect
    simp only [reshape_to_window]
    rw [if_pos ⟨Nat.mul_pos hh hk, by
      rw [hfl]
      exact Nat.mod_eq_zero_of_dvd (Nat.mul_dvd_mul_left rows.length
        (Nat.dvd_of_mod_eq_zero hmod))⟩]
    exact ⟨_, rfl⟩

/-- Claim C9, witness: each hypothesis-bearing part instantiated — a 1d
array of width 3 and a one-row 2d array of width 3 fail to reshape at
window size 2, while padding always succeeds and widths 4 and 2 reshape
successfully. -/
theorem c9_shape_errors_witness :
    reshape_to_window (NpArr.a1 [1, 2, 3]) 2 = Except.error ShapeErr.cannotReshape ∧
    reshape_to_window (NpArr.a2 [[1, 2, 3]]) 2 = Except.error ShapeErr.cannotReshape ∧
    (∃ r, pad_to_window (NpArr.a1 [1, 2, 3]) 2 0 true = Except.ok r) ∧
    (∃ r, pad_to_window (NpArr.a2 [[1, 2, 3]]) 2 0 true = Except.ok r) ∧
    (∃ ws, reshape_to_window (NpArr.a1 [1, 2, 3, 4]) 2 = Except.ok (NpArr.a2 ws)) ∧
    (∃ t3, reshape_to_window (NpArr.a2 [[1, 2], [3, 4]]) 2 = Except.ok (NpArr.a3 t3)) :=
  ⟨c9_shape_errors.2.2.2.2.1 [1, 2, 3] 2 (by decide),
   c9_shape_errors.2.2.2.2.2.1 [[1, 2, 3]] 3 2 (by decide) (by decide) (by decide),
   c9_shape_errors.2.2.2.2.2.2.1 [1, 2, 3] 2 0 true (by decide),
   c9_shape_errors.2.2.2.2.2.2.2.1 [[1, 2, 3]] 2 0 true (by decide),
   c9_shape_errors.2.2.2.2.2.2.2.2.1 [1, 2, 3, 4] 2 (by decide) (by decide),
   c9_shape_errors.2.2.2.2.2.2.2.2.2 [[1, 2], [3, 4]] 2 2 (by decide) (by decide)
     (by decide) (by decide)⟩

end Vak
